import Mathlib

/-!
Verification of the agent-communication substrate of the Hackfest25-60
repository: the mock message broker, the agent dispatch loop, the RPC
helper and the orchestrator pipeline, embedded shallowly from

  * src/AI_researcher/crew_ai/utils/messaging.py   (MessageBroker, RPC)
  * src/AI_researcher/crew_ai/agents/base_agent.py (BaseAgent)
  * src/crew_ai/orchestrator.py                    (Orchestrator)

Python dicts are modelled as association lists of string keys to `Value`s
(`Dict`); the mock broker message store `mock_messages` is modelled as a
total function from queue name to buffer, where an absent key reads as the
empty buffer — every read of `mock_messages` in the source either guards
with `in`/truthiness or initialises an absent key to `[]` first, so the
absent key and the empty buffer are observationally identical.
-/

namespace Crew

/-- JSON-like values carried in message payloads (Python dict values). -/
inductive Value where
  | vNone : Value
  | vStr  : String → Value
  | vNat  : Nat → Value
  | vBool : Bool → Value
  | vList : List Value → Value
  | vDict : List (String × Value) → Value
deriving Repr

/-- A Python dict with string keys, in insertion order. -/
abbrev Dict := List (String × Value)

/-- `d.get(k)`: first value bound to `k`, if any. -/
def dget (d : Dict) (k : String) : Option Value :=
  match d with
  | [] => none
  | (k', v) :: rest => if k' = k then some v else dget rest k

/-- `d.get(k, dflt)`. -/
def dgetD (d : Dict) (k : String) (dflt : Value) : Value :=
  (dget d k).getD dflt

/-- `message.get("type")` when it is a string; a missing or non-string
`type` never matches a key of the (string-keyed) handler registry. -/
def msgType (message : Dict) : Option String :=
  match dget message "type" with
  | some (Value.vStr t) => some t
  | _ => none

/-- `message["reply_to"]` when present and a string.  Every caller in the
source (`RPC.call`, `BaseAgent.send_message`) sets `reply_to` to a queue
name string, so the present-and-string case is the only reachable one. -/
def replyTo (message : Dict) : Option String :=
  match dget message "reply_to" with
  | some (Value.vStr r) => some r
  | _ => none

/-- `status`-field test: Python `d.get("status") != "success"` is the
negation of this (a missing or non-string status also compares unequal). -/
def isSuccess (d : Dict) : Bool :=
  match dget d "status" with
  | some (Value.vStr s) => s == "success"
  | _ => false

/-- One entry of a mock queue buffer: `messaging.py` lines 76-80 store the
message together with a correlation id and a timestamp. -/
structure MockEntry where
  message : Dict
  correlation_id : String
  timestamp : Nat
deriving Repr

/-- Mock-broker state: `mock_queues` (queue name to routing-key bindings,
a Python dict in insertion order) and `mock_messages` (queue name to
pending buffer, total with absent key read as `[]`). -/
structure BrokerState where
  mock_queues : List (String × List String)
  mock_messages : String → List MockEntry

/-- Python dict assignment `d[k] = v`: replaces the value in place when the
key exists, appends at the end otherwise. -/
def dictInsert (l : List (String × List String)) (k : String) (v : List String) :
    List (String × List String) :=
  match l with
  | [] => [(k, v)]
  | (k', v') :: rest =>
      if k' = k then (k, v) :: rest else (k', v') :: dictInsert rest k v

/-- `MessageBroker.create_queue` in mock mode (messaging.py 112-119):
`mock_queues[name] = routing_keys`; the `if name not in mock_messages:
mock_messages[name] = []` branch is the identity under the absent-key =
empty-buffer reading of `mock_messages`. -/
def create_queue (st : BrokerState) (queue_name : String) (routing_keys : List String) :
    BrokerState :=
  { st with mock_queues := dictInsert st.mock_queues queue_name routing_keys }

/-- Append one entry to a single queue buffer of the message map. -/
def appendEntry (m : String → List MockEntry) (q : String) (e : MockEntry) :
    String → List MockEntry :=
  fun q' => if q' = q then m q' ++ [e] else m q'

/-- The binding loop of `publish_message` (messaging.py 82-92): for every
`(queue_name, bindings)` of `mock_queues` with `routing_key in bindings`,
append the entry to that queue's buffer.  `k` indexes the fresh-uuid
supply used when no correlation id was passed (`correlation_id or
str(uuid.uuid4())` draws a fresh uuid per append). -/
def deliverToBound (msgs : String → List MockEntry) (queues : List (String × List String))
    (routing_key : String) (message : Dict) (correlation_id : Option String)
    (now : Nat) (fresh : Nat → String) (k : Nat) : String → List MockEntry :=
  match queues with
  | [] => msgs
  | (q, bindings) :: rest =>
      if routing_key ∈ bindings then
        deliverToBound
          (appendEntry msgs q
            { message := message, correlation_id := correlation_id.getD (fresh k),
              timestamp := now })
          rest routing_key message correlation_id now fresh (k + 1)
      else
        deliverToBound msgs rest routing_key message correlation_id now fresh k

/-- `MessageBroker.publish_message` in mock mode (messaging.py 68-94):
append the entry under the routing-key entry of `mock_messages`, then run
the binding loop over `mock_queues`.  `now` stands for `time.time()` and
`fresh` for the stream of `str(uuid.uuid4())` draws. -/
def publish_message (st : BrokerState) (routing_key : String) (message : Dict)
    (correlation_id : Option String) (now : Nat) (fresh : Nat → String) : BrokerState :=
  let msgs1 := appendEntry st.mock_messages routing_key
    { message := message, correlation_id := correlation_id.getD (fresh 0),
      timestamp := now }
  { st with mock_messages :=
      deliverToBound msgs1 st.mock_queues routing_key message correlation_id now fresh 1 }

/-- The per-agent context `BaseAgent` keeps: its id and the handler
registry `message_handlers` (base_agent.py 18, 32).  A handler takes the
whole message dict and the correlation id and either returns a result
value or raises (modelled by `Except`). -/
structure AgentCtx where
  agent_id : String
  handlers : String → Option (Dict → String → Except String Value)

/-- `BaseAgent._process_message` (base_agent.py 46-82): look up the
message type in the handler registry; unknown types are logged and
dropped; a found handler is invoked, its exception caught, and when the
inbound message carries `reply_to` a response dict of shape
`{type: t_response, status: success|error, data|error: ..., agent_id}` is
published to that address with the request's correlation id. -/
def process_message (ctx : AgentCtx) (st : BrokerState) (message : Dict)
    (correlation_id : String) (now : Nat) (fresh : Nat → String) : BrokerState :=
  match msgType message with
  | none => st
  | some t =>
    match ctx.handlers t with
    | none => st
    | some handler =>
      match handler message correlation_id with
      | Except.ok response =>
        match replyTo message with
        | none => st
        | some rt =>
            publish_message st rt
              [("type", Value.vStr (t ++ "_response")),
               ("status", Value.vStr "success"),
               ("data", response),
               ("agent_id", Value.vStr ctx.agent_id)]
              (some correlation_id) now fresh
      | Except.error e =>
        match replyTo message with
        | none => st
        | some rt =>
            publish_message st rt
              [("type", Value.vStr (t ++ "_response")),
               ("status", Value.vStr "error"),
               ("error", Value.vStr e),
               ("agent_id", Value.vStr ctx.agent_id)]
              (some correlation_id) now fresh

/-- `MessageBroker._mock_consumer_thread` (messaging.py 170-190), unrolled
for `fuel` loop iterations (the real loop runs forever on a daemon
thread): each iteration pops the head of the queue buffer, if any, and
invokes the callback — `BaseAgent._process_message` — on it; the
`try/except` around the callback means an iteration never aborts the
loop, which `process_message` reflects by being total.  The returned list
logs the `(message, correlation_id)` of each callback invocation in
order. -/
def consumerRun (ctx : AgentCtx) (queue : String) (st : BrokerState) (fuel : Nat)
    (now : Nat) (fresh : Nat → String) : BrokerState × List (Dict × String) :=
  match fuel with
  | 0 => (st, [])
  | fuel' + 1 =>
    match st.mock_messages queue with
    | [] => consumerRun ctx queue st fuel' now fresh
    | entry :: rest =>
        let st1 : BrokerState :=
          { st with mock_messages := fun q => if q = queue then rest else st.mock_messages q }
        let st2 := process_message ctx st1 entry.message entry.correlation_id now fresh
        let next := consumerRun ctx queue st2 fuel' now fresh
        (next.1, (entry.message, entry.correlation_id) :: next.2)

/-- Number of copies a single mock publish with routing key `rk` appends
to queue `q`'s buffer: one for the map entry under the routing key itself
plus one per binding-loop hit. -/
def deliverCount (st : BrokerState) (q rk : String) : Nat :=
  (if q = rk then 1 else 0) +
    st.mock_queues.countP (fun p => p.1 == q && p.2.contains rk)

/-- The broker state right after `BaseAgent.__init__` has created the
agent's self-bound inbound queue (`create_queue(aq, [aq])`) and two
request envelopes have been delivered to it and to nothing else. -/
def twoMsgState (aq : String) (e1 e2 : MockEntry) : BrokerState :=
  ⟨[(aq, [aq])], fun x => if x = aq then [e1, e2] else []⟩

/-- The reply scan of `RPC.call` in mock mode (messaging.py 288-293):
walk the callback-queue buffer in order, select the FIRST entry whose
`correlation_id` equals the one generated for this call, and remove
exactly that entry; return `none` (keep waiting) when no entry matches.
Entries with any other correlation id are skipped and left in place. -/
def findMatch (entries : List MockEntry) (cid : String) :
    Option (MockEntry × List MockEntry) :=
  match entries with
  | [] => none
  | e :: rest =>
      if e.correlation_id = cid then some (e, rest)
      else
        match findMatch rest cid with
        | some (m, rest') => some (m, e :: rest')
        | none => none

/-- The wait loop of `RPC.call` in mock mode (messaging.py 282-299),
discretised at the loop's own granularity: each iteration scans the
callback queue (whose contents at iteration `i` are `sched i`, filled in
by concurrently running agent threads), then checks
`time.time() - start_time > timeout` — with one `time.sleep(0.1)` per
iteration the elapsed time at iteration `i` is `i` tenths of a second, so
the check is `i > 10 * timeoutSec` — and raises
`TimeoutError(f"RPC call to {routing_key} timed out after {timeout}
seconds")` when it holds (modelled as `Except.error`).  Returns the
outcome together with the index of the iteration that resolved the call;
`fuel` bounds the unrolling and is never exhausted when
`fuel > 10 * timeoutSec - iter`. -/
def rpcWaitFrom (sched : Nat → List MockEntry) (cid routing_key : String)
    (timeoutSec : Nat) (iter fuel : Nat) : Except String Dict × Nat :=
  match fuel with
  | 0 => (Except.error "fuel exhausted", iter)
  | fuel' + 1 =>
    match findMatch (sched iter) cid with
    | some (m, _) => (Except.ok m.message, iter)
    | none =>
        if iter > 10 * timeoutSec then
          (Except.error
            ("RPC call to " ++ routing_key ++ " timed out after " ++
              toString timeoutSec ++ " seconds"), iter)
        else
          rpcWaitFrom sched cid routing_key timeoutSec (iter + 1) fuel'

/-- The wait path of `BaseAgent.send_message` with `wait_for_response=True`
(base_agent.py 103-135): a temporary consumer's `response_handler` stores
EVERY arriving message into `response_data[0]` and sets the event — it
never compares the arriving correlation id with `caller_cid`, the id
generated at line 126 (which is only passed to `publish_message`); the
caller wakes on the first event set and returns the stored message, or
the timeout dict `{"status": "error", "error": "Timeout waiting for
response"}` when nothing arrives within the window.  `arrivals` lists the
`(message, correlation_id)` pairs delivered to the temporary queue within
the timeout window, in order. -/
def send_message_wait (_caller_cid : String) (arrivals : List (Dict × String)) : Dict :=
  match arrivals with
  | [] => [("status", Value.vStr "error"),
           ("error", Value.vStr "Timeout waiting for response")]
  | (m, _) :: _ => m

/-- `MessageBroker.close` (messaging.py 63-66) for the mock broker: the
guard `not self.use_mock and ...` is false, so nothing happens — no queue
or buffer is released. -/
def broker_close_mock (st : BrokerState) : BrokerState := st

/-- `BaseAgent.stop` (base_agent.py 157-160): its entire body is
`self.message_broker.close()`; no flag is set and the consumer thread
(a daemon running `_mock_consumer_thread`'s unconditional `while True`)
is not signalled in any way. -/
def agent_stop_mock (st : BrokerState) : BrokerState := broker_close_mock st

/-- `BaseAgent._handle_stop` (base_agent.py 88-91): calls `self.stop()`
(a broker-state no-op in mock mode) and returns the acknowledgement. -/
def handle_stop (agent_id : String) (_message : Dict) (_cid : String) :
    Except String Value :=
  Except.ok (Value.vDict
    [("status", Value.vStr "stopped"), ("agent_id", Value.vStr agent_id)])

/-- `BaseAgent._handle_ping` (base_agent.py 84-86). -/
def handle_ping (agent_id agent_type : String) (_message : Dict) (_cid : String) :
    Except String Value :=
  Except.ok (Value.vDict
    [("status", Value.vStr "alive"), ("agent_id", Value.vStr agent_id),
     ("agent_type", Value.vStr agent_type)])

/-!
Orchestrator (src/crew_ai/orchestrator.py).  Each pipeline stage is an
RPC to a domain agent whose internals are out of scope; the environment
abstracts the reply each RPC resolves to (a response dict as produced by
`BaseAgent._process_message`, or `send_message`'s timeout dict).  The
`List StageCall` component of each result is a trace of the RPCs issued,
in order, used to state which stages were and were not invoked.
-/

/-- One RPC issued by the orchestrator, with the arguments that reach the
target agent. -/
inductive StageCall where
  | mineData (query : String)
  | createKnowledgeGraph
  | answerQuery (query : String)
  | validateAnswer (query : String) (answer : Value)
  | generateReport (title : String) (queries : List String) (answers : List Value)
      (output_path : String)
deriving Repr

/-- The replies the orchestrator's RPCs resolve to for one pipeline run. -/
structure OrchestratorEnv where
  mining_result : Dict
  graph_result : Dict
  sub_queries : List String
  rag_result : String → Dict
  validation_result : String → Value → Value → Dict
  report_result : String → List String → List Value → String → Dict

/-- Python `validation_result.get("validation_result", {}).get(
"corrected_answer", answer)` (orchestrator.py 130): outer get with dict
default, inner get on it.  (A non-dict value under `"validation_result"`
would raise `AttributeError` in Python; it is modelled as the default and
is unreached by the pipeline claims.) -/
def nestedGetD (d : Dict) (k1 k2 : String) (dflt : Value) : Value :=
  match dgetD d k1 (Value.vDict []) with
  | Value.vDict inner => dgetD inner k2 dflt
  | _ => dflt

/-- `Orchestrator.answer_query` (orchestrator.py 92-137): RPC the
retrieval agent, abort this sub-query with an error dict when its status
is not success; otherwise RPC the validator with the query, the extracted
answer and context, abort with an error dict when validation is not
success; otherwise build the success dict with the corrected answer. -/
def answer_query (env : OrchestratorEnv) (query : String) : Dict × List StageCall :=
  let rag := env.rag_result query
  if isSuccess rag = false then
    ([("status", Value.vStr "error"),
      ("error", Value.vStr "Failed to get answer from LiteRAGAgent")],
     [StageCall.answerQuery query])
  else
    let answer := dgetD rag "answer" (Value.vStr "")
    let context := dgetD rag "context" (Value.vList [])
    let validation := env.validation_result query answer context
    if isSuccess validation = false then
      ([("status", Value.vStr "error"), ("error", Value.vStr "Failed to validate answer")],
       [StageCall.answerQuery query, StageCall.validateAnswer query answer])
    else
      ([("status", Value.vStr "success"),
        ("query", Value.vStr query),
        ("answer", nestedGetD validation "validation_result" "corrected_answer" answer),
        ("validation", dgetD validation "validation_result" (Value.vDict []))],
       [StageCall.answerQuery query, StageCall.validateAnswer query answer])

/-- Stage 4 of `run_research_pipeline` (orchestrator.py 186-196): for each
sub-query in order, call `answer_query`; on success append its `answer`
value, otherwise append the placeholder `"No answer available."` and
continue with the remaining sub-queries. -/
def stage4 (env : OrchestratorEnv) : List String → List Value × List StageCall
  | [] => ([], [])
  | q :: rest =>
      let ar := answer_query env q
      let a :=
        if isSuccess ar.1 then dgetD ar.1 "answer" (Value.vStr "")
        else Value.vStr "No answer available."
      let restR := stage4 env rest
      (a :: restR.1, ar.2 ++ restR.2)

/-- `Orchestrator.run_research_pipeline` (orchestrator.py 159-219).
`start_time`/`end_time` stand for the two `time.time()` reads (Python
floats, modelled as ticks; no claim depends on their value). -/
def run_research_pipeline (env : OrchestratorEnv) (research_query : String)
    (output_path : String) (start_time end_time : Nat) : Dict × List StageCall :=
  let mining := env.mining_result
  if isSuccess mining = false then
    ([("status", Value.vStr "error"), ("error", Value.vStr "Data mining failed"),
      ("details", Value.vDict mining)],
     [StageCall.mineData research_query])
  else
    let graph := env.graph_result
    if isSuccess graph = false then
      ([("status", Value.vStr "error"),
        ("error", Value.vStr "Knowledge graph creation failed"),
        ("details", Value.vDict graph)],
       [StageCall.mineData research_query, StageCall.createKnowledgeGraph])
    else
      let sub_queries := env.sub_queries
      let s4 := stage4 env sub_queries
      let answers := s4.1
      let title := "Research Report: " ++ research_query
      let report := env.report_result title sub_queries answers output_path
      let trace := StageCall.mineData research_query :: StageCall.createKnowledgeGraph ::
        s4.2 ++ [StageCall.generateReport title sub_queries answers output_path]
      if isSuccess report = false then
        ([("status", Value.vStr "error"),
          ("error", Value.vStr "Report generation failed"),
          ("details", Value.vDict report)],
         trace)
      else
        ([("status", Value.vStr "success"),
          ("execution_time", Value.vNat (end_time - start_time)),
          ("research_query", Value.vStr research_query),
          ("sub_queries", Value.vList (sub_queries.map Value.vStr)),
          ("answers", Value.vList answers),
          ("report_path", dgetD report "report_path" (Value.vStr ""))],
         trace)

/-!
Concrete fixtures used by witnesses and counterexamples.
-/

/-- A deterministic stand-in for the `str(uuid.uuid4())` stream. -/
def fxFresh : Nat → String := fun n => "uuid-" ++ toString n

/-- A broker with no queues and no pending messages. -/
def stEmpty : BrokerState := ⟨[], fun _ => []⟩

/-- A response dict as `_process_message` would publish it. -/
def fxResp : Dict := [("type", Value.vStr "task_response"), ("status", Value.vStr "success")]

/-- A reply-queue entry whose correlation id is NOT the caller's. -/
def fxEntryOther : MockEntry := ⟨fxResp, "cid-other", 0⟩

/-- A reply-queue entry whose correlation id IS the caller's `cid-X`. -/
def fxEntryMatch : MockEntry := ⟨fxResp, "cid-X", 1⟩

/-- A non-success stage reply. -/
def failDict : Dict := [("status", Value.vStr "error"), ("error", Value.vStr "stage broke")]

/-- A bare success stage reply. -/
def okDict : Dict := [("status", Value.vStr "success")]

/-- Pipeline environment whose mining stage fails. -/
def envFailMine : OrchestratorEnv :=
  { mining_result := failDict, graph_result := okDict, sub_queries := [],
    rag_result := fun _ => okDict, validation_result := fun _ _ _ => okDict,
    report_result := fun _ _ _ _ => okDict }

/-- Pipeline environment whose knowledge-graph stage fails. -/
def envFailKG : OrchestratorEnv :=
  { envFailMine with mining_result := okDict, graph_result := failDict }

/-- Pipeline environment whose report stage fails. -/
def envFailReport : OrchestratorEnv :=
  { envFailMine with
    mining_result := okDict
    graph_result := okDict
    report_result := fun _ _ _ _ => failDict }

/-- A successful retrieval reply. -/
def ragOK : Dict :=
  [("status", Value.vStr "success"), ("answer", Value.vStr "A2"),
   ("context", Value.vList [])]

/-- Pipeline environment for stage-4 degradation: two sub-queries, the
retrieval RPC fails on `Q1` and succeeds on `Q2`; everything else
succeeds. -/
def envC7 : OrchestratorEnv :=
  { mining_result := okDict, graph_result := okDict, sub_queries := ["Q1", "Q2"],
    rag_result := fun q => if q = "Q1" then failDict else ragOK,
    validation_result := fun _ _ _ =>
      [("status", Value.vStr "success"),
       ("validation_result", Value.vDict [("corrected_answer", Value.vStr "A2-fixed")])],
    report_result := fun _ _ _ _ =>
      [("status", Value.vStr "success"), ("report_path", Value.vStr "out.pdf")] }

/-- An agent with a raising handler (`boom`), a succeeding handler
(`work`), and the default `ping`/`stop` handlers. -/
def ctxW : AgentCtx :=
  ⟨"agent-w", fun t =>
    if t = "boom" then some (fun _ _ => Except.error "kaboom")
    else if t = "work" then some (fun _ _ => Except.ok (Value.vStr "done"))
    else if t = "ping" then some (handle_ping "agent-w" "WorkerAgent")
    else if t = "stop" then some (handle_stop "agent-w")
    else none⟩

/-- A request whose handler raises, with a reply address. -/
def mBoom : Dict :=
  [("type", Value.vStr "boom"), ("data", Value.vDict []),
   ("agent_id", Value.vStr "caller"), ("reply_to", Value.vStr "rq-1")]

/-- A request whose handler succeeds, with a reply address. -/
def mWork : Dict :=
  [("type", Value.vStr "work"), ("data", Value.vDict []),
   ("agent_id", Value.vStr "caller"), ("reply_to", Value.vStr "rq-2")]

/-- A request of a type no handler is registered for, with a reply
address. -/
def mBogus : Dict := [("type", Value.vStr "bogus"), ("reply_to", Value.vStr "rq-3")]

/-- agent-w's inbound queue holding the raising request then the
succeeding one. -/
def stC3 : BrokerState :=
  ⟨[("agent_agent-w", ["agent_agent-w"])],
   fun q => if q = "agent_agent-w" then [⟨mBoom, "cid-1", 0⟩, ⟨mWork, "cid-2", 0⟩] else []⟩

/-- A broker with a single self-bound queue (the shape `BaseAgent.__init__`
creates: `create_queue(queue_name, [queue_name])`) and empty buffers. -/
def stC5 : BrokerState := ⟨[("agent_x", ["agent_x"])], fun _ => []⟩

/-- A fire-and-forget request (no `reply_to`). -/
def mPlain : Dict := [("type", Value.vStr "work"), ("agent_id", Value.vStr "caller")]

/-- A built-in `stop` request with a reply address. -/
def mStop : Dict :=
  [("type", Value.vStr "stop"), ("reply_to", Value.vStr "rq-s"),
   ("agent_id", Value.vStr "caller")]

/-- A `ping` request with a reply address. -/
def mPing : Dict :=
  [("type", Value.vStr "ping"), ("reply_to", Value.vStr "rq-p"),
   ("agent_id", Value.vStr "caller")]

/-- agent-w's inbound queue holding a `stop` request followed by a further
`ping` request. -/
def stC10 : BrokerState :=
  ⟨[("agent_agent-w", ["agent_agent-w"])],
   fun q => if q = "agent_agent-w" then [⟨mStop, "cid-s", 0⟩, ⟨mPing, "cid-p", 0⟩] else []⟩

/-!
Helper lemmas about the broker embedding.
-/

theorem appendEntry_same (m : String → List MockEntry) (q : String) (e : MockEntry) :
    appendEntry m q e q = m q ++ [e] := by
  simp [appendEntry]

theorem appendEntry_other (m : String → List MockEntry) (q q' : String) (e : MockEntry)
    (h : q' ≠ q) : appendEntry m q e q' = m q' := by
  simp [appendEntry, h]

theorem deliverToBound_apply (queues : List (String × List String))
    (msgs : String → List MockEntry) (rk : String) (msg : Dict) (cid : String)
    (now : Nat) (fresh : Nat → String) (k : Nat) (q : String) :
    deliverToBound msgs queues rk msg (some cid) now fresh k q =
      msgs q ++ List.replicate
        (queues.countP (fun p => p.1 == q && p.2.contains rk))
        { message := msg, correlation_id := cid, timestamp := now } := by
  induction queues generalizing msgs k with
  | nil => simp [deliverToBound]
  | cons p rest ih =>
    obtain ⟨qn, bindings⟩ := p
    rw [deliverToBound]
    by_cases hb : rk ∈ bindings
    · rw [if_pos hb, ih]
      by_cases hq : qn = q
      · subst hq
        rw [appendEntry_same]
        simp [List.countP_cons, hb, List.replicate_succ]
      · rw [appendEntry_other _ _ _ _ (fun h => hq h.symm)]
        simp [List.countP_cons, hq]
    · rw [if_neg hb, ih]
      simp [List.countP_cons, hb]

theorem publish_message_apply (st : BrokerState) (rk : String) (msg : Dict) (cid : String)
    (now : Nat) (fresh : Nat → String) (q : String) :
    (publish_message st rk msg (some cid) now fresh).mock_messages q =
      st.mock_messages q ++
        List.replicate (deliverCount st q rk)
          { message := msg, correlation_id := cid, timestamp := now } := by
  show deliverToBound (appendEntry st.mock_messages rk _) st.mock_queues rk msg
      (some cid) now fresh 1 q = _
  rw [deliverToBound_apply]
  unfold deliverCount
  by_cases hq : q = rk
  · subst hq
    rw [appendEntry_same]
    rw [Nat.add_comm]
    simp [List.replicate_succ]
  · rw [appendEntry_other _ _ _ _ hq]
    simp [hq]

theorem publish_message_queues (st : BrokerState) (rk : String) (msg : Dict)
    (cid : Option String) (now : Nat) (fresh : Nat → String) :
    (publish_message st rk msg cid now fresh).mock_queues = st.mock_queues := rfl

/-- `deliverCount` to the routing key's own map entry is always at least
one (the append at messaging.py line 76). -/
theorem deliverCount_self (st : BrokerState) (rk : String) :
    1 ≤ deliverCount st rk rk := by
  unfold deliverCount
  simp

/-- `process_message` either leaves the broker untouched or publishes one
response dict with the request's correlation id. -/
theorem process_message_cases (ctx : AgentCtx) (st : BrokerState) (m : Dict)
    (cid : String) (now : Nat) (fresh : Nat → String) :
    process_message ctx st m cid now fresh = st ∨
    ∃ rt resp, process_message ctx st m cid now fresh =
      publish_message st rt resp (some cid) now fresh := by
  unfold process_message
  rcases hmt : msgType m with _ | t
  · simp only [hmt]
    exact Or.inl trivial
  · simp only [hmt]
    rcases hh : ctx.handlers t with _ | handler
    · simp only [hh]
      exact Or.inl trivial
    · simp only [hh]
      rcases hr : handler m cid with r | e
      · simp only [hr]
        rcases hrt : replyTo m with _ | rt
        · simp only [hrt]
          exact Or.inl trivial
        · simp only [hrt]
          right
          exact ⟨rt, _, rfl⟩
      · simp only [hr]
        rcases hrt : replyTo m with _ | rt
        · simp only [hrt]
          exact Or.inl trivial
        · simp only [hrt]
          right
          exact ⟨rt, _, rfl⟩

/-- `process_message` only ever appends to queue buffers: whatever it did,
every buffer's old content is a prefix of its new content. -/
theorem process_message_extends (ctx : AgentCtx) (st : BrokerState) (m : Dict)
    (cid : String) (now : Nat) (fresh : Nat → String) (q : String) :
    ∃ extra, (process_message ctx st m cid now fresh).mock_messages q =
      st.mock_messages q ++ extra := by
  rcases process_message_cases ctx st m cid now fresh with h | ⟨rt, resp, h⟩
  · exact ⟨[], by simp [h]⟩
  · exact ⟨_, by rw [h]; exact publish_message_apply ..⟩

theorem dictInsert_idem (l : List (String × List String)) (k : String) (v : List String) :
    dictInsert (dictInsert l k v) k v = dictInsert l k v := by
  induction l with
  | nil => simp [dictInsert]
  | cons p rest ih =>
    obtain ⟨k', v'⟩ := p
    by_cases h : k' = k
    · subst h
      simp [dictInsert]
    · simp [dictInsert, h, ih]

/-- C8: an inbound envelope whose type has no registered handler is
dropped: the broker state — every queue's bindings and pending buffer —
is left exactly as it was, so no response of any kind is published, even
when the envelope carries `reply_to` (the unknown-type branch of
`_process_message`, base_agent.py 81-82, runs before `reply_to` is ever
consulted). -/
theorem unknown_type_dropped (ctx : AgentCtx) (st : BrokerState) (m : Dict)
    (cid : String) (now : Nat) (fresh : Nat → String) (t : String)
    (ht : msgType m = some t) (hh : ctx.handlers t = none) :
    process_message ctx st m cid now fresh = st := by
  unfold process_message
  simp only [ht, hh]

theorem unknown_type_dropped_witness :
    process_message ctxW stC3 mBogus "cid-77" 4 fxFresh = stC3 :=
  unknown_type_dropped ctxW stC3 mBogus "cid-77" 4 fxFresh "bogus" rfl rfl

/-- C9: `create_queue` is idempotent in mock mode: re-registering a queue
with identical bindings leaves the routing table (`mock_queues`) and every
pending buffer (`mock_messages`) exactly as after the first call — in
particular pending envelopes survive, and any subsequent publish delivers
to every queue exactly as it would have before the re-registration.  The
operation is a total function, so the second call raises no error. -/
theorem create_queue_idempotent (st : BrokerState) (n : String) (ks : List String) :
    create_queue (create_queue st n ks) n ks = create_queue st n ks ∧
    ∀ rk msg cid now fresh q,
      (publish_message (create_queue (create_queue st n ks) n ks) rk msg cid now
        fresh).mock_messages q =
      (publish_message (create_queue st n ks) rk msg cid now fresh).mock_messages q := by
  have h : create_queue (create_queue st n ks) n ks = create_queue st n ks := by
    simp [create_queue, dictInsert_idem]
  exact ⟨h, fun rk msg cid now fresh q => by rw [h]⟩

/-- C2: `run_research_pipeline` aborts on a structural-stage failure
(orchestrator.py 171-172, 178-179, 207-208): when the mining stage reply
is non-success the pipeline returns the error dict naming data mining
with the stage reply as `details` and the RPC trace shows only the mining
call — neither the knowledge-graph nor any later RPC is issued; when
mining succeeds and the knowledge-graph stage fails, the error dict names
knowledge-graph creation and the trace stops there; when stages 1 and 2
succeed and the report stage fails, the result is the error dict naming
report generation with the report reply as `details` (stage 5 is last, so
no later RPC exists). -/
theorem pipeline_abort_on_stage_failure (env : OrchestratorEnv) (rq out : String)
    (t0 t1 : Nat) :
    (isSuccess env.mining_result = false →
      run_research_pipeline env rq out t0 t1 =
        ([("status", Value.vStr "error"), ("error", Value.vStr "Data mining failed"),
          ("details", Value.vDict env.mining_result)],
         [StageCall.mineData rq])) ∧
    (isSuccess env.mining_result = true → isSuccess env.graph_result = false →
      run_research_pipeline env rq out t0 t1 =
        ([("status", Value.vStr "error"),
          ("error", Value.vStr "Knowledge graph creation failed"),
          ("details", Value.vDict env.graph_result)],
         [StageCall.mineData rq, StageCall.createKnowledgeGraph])) ∧
    (isSuccess env.mining_result = true → isSuccess env.graph_result = true →
      isSuccess (env.report_result ("Research Report: " ++ rq) env.sub_queries
        (stage4 env env.sub_queries).1 out) = false →
      (run_research_pipeline env rq out t0 t1).1 =
        [("status", Value.vStr "error"), ("error", Value.vStr "Report generation failed"),
         ("details", Value.vDict (env.report_result ("Research Report: " ++ rq)
           env.sub_queries (stage4 env env.sub_queries).1 out))]) := by
  refine ⟨fun h1 => ?_, fun h1 h2 => ?_, fun h1 h2 h3 => ?_⟩
  · simp [run_research_pipeline, h1]
  · simp [run_research_pipeline, h1, h2]
  · simp [run_research_pipeline, h1, h2, h3]

theorem pipeline_abort_witness :
    run_research_pipeline envFailMine "q" "r.pdf" 0 0 =
      ([("status", Value.vStr "error"), ("error", Value.vStr "Data mining failed"),
        ("details", Value.vDict envFailMine.mining_result)],
       [StageCall.mineData "q"]) ∧
    run_research_pipeline envFailKG "q" "r.pdf" 0 0 =
      ([("status", Value.vStr "error"),
        ("error", Value.vStr "Knowledge graph creation failed"),
        ("details", Value.vDict envFailKG.graph_result)],
       [StageCall.mineData "q", StageCall.createKnowledgeGraph]) ∧
    (run_research_pipeline envFailReport "q" "r.pdf" 0 0).1 =
      [("status", Value.vStr "error"), ("error", Value.vStr "Report generation failed"),
       ("details", Value.vDict (envFailReport.report_result ("Research Report: " ++ "q")
         envFailReport.sub_queries (stage4 envFailReport envFailReport.sub_queries).1
         "r.pdf"))] :=
  ⟨(pipeline_abort_on_stage_failure envFailMine "q" "r.pdf" 0 0).1 rfl,
   (pipeline_abort_on_stage_failure envFailKG "q" "r.pdf" 0 0).2.1 rfl rfl,
   (pipeline_abort_on_stage_failure envFailReport "q" "r.pdf" 0 0).2.2 rfl rfl rfl⟩

/-- Stage 4 produces one answer per sub-query, in order: the extracted
answer when the composite `answer_query` result is a success, the
placeholder string otherwise (orchestrator.py 189-196). -/
theorem stage4_answers (env : OrchestratorEnv) (qs : List String) :
    (stage4 env qs).1 = qs.map (fun q =>
      if isSuccess (answer_query env q).1 then
        dgetD (answer_query env q).1 "answer" (Value.vStr "")
      else Value.vStr "No answer available.") := by
  induction qs with
  | nil => rfl
  | cons q rest ih => simp [stage4, ih]

/-- C7 counterexample: the pipeline's stage-4 placeholder is the string
`"No answer available."` — with a trailing period (orchestrator.py 196) —
not the claim's `"No answer available"`: with sub-queries `Q1` (whose
retrieval RPC fails) and `Q2` (which succeeds), the answers produced and
carried into the final result are `["No answer available.", "A2-fixed"]`,
and the produced placeholder differs from the claimed one. -/
theorem stage4_placeholder_counterexample :
    (stage4 envC7 ["Q1", "Q2"]).1 =
      [Value.vStr "No answer available.", Value.vStr "A2-fixed"] ∧
    dget (run_research_pipeline envC7 "RQ" "r.pdf" 0 0).1 "answers" =
      some (Value.vList [Value.vStr "No answer available.", Value.vStr "A2-fixed"]) ∧
    Value.vStr "No answer available." ≠ Value.vStr "No answer available" := by
  refine ⟨rfl, rfl, fun h => ?_⟩
  injection h with h'
  exact absurd h' (by decide)

/-- C7 (amended): when stages 1 and 2 succeed, for every sub-query whose
composite `answer_query` step (retrieval RPC or validation RPC) is
non-success the pipeline does not abort — that sub-query's answer is
degraded to the placeholder `"No answer available."` (with a trailing
period) — and processing continues through all remaining sub-queries and
the report stage: the RPC trace always ends with the `generate_report`
call, carrying one answer per sub-query. -/
theorem stage4_degrades_and_continues (env : OrchestratorEnv) (rq out : String)
    (t0 t1 : Nat)
    (hm : isSuccess env.mining_result = true) (hg : isSuccess env.graph_result = true) :
    (run_research_pipeline env rq out t0 t1).2 =
      StageCall.mineData rq :: StageCall.createKnowledgeGraph ::
        ((stage4 env env.sub_queries).2 ++
          [StageCall.generateReport ("Research Report: " ++ rq) env.sub_queries
            (stage4 env env.sub_queries).1 out]) ∧
    (stage4 env env.sub_queries).1 = env.sub_queries.map (fun q =>
      if isSuccess (answer_query env q).1 then
        dgetD (answer_query env q).1 "answer" (Value.vStr "")
      else Value.vStr "No answer available.") := by
  constructor
  · simp only [run_research_pipeline, hm, hg, Bool.true_eq_false, if_false]
    split
    · rfl
    · rfl
  · exact stage4_answers env env.sub_queries

theorem stage4_degrades_witness :
    (run_research_pipeline envC7 "RQ" "r.pdf" 0 0).2 =
      StageCall.mineData "RQ" :: StageCall.createKnowledgeGraph ::
        ((stage4 envC7 envC7.sub_queries).2 ++
          [StageCall.generateReport ("Research Report: " ++ "RQ") envC7.sub_queries
            (stage4 envC7 envC7.sub_queries).1 "r.pdf"]) ∧
    (stage4 envC7 envC7.sub_queries).1 = envC7.sub_queries.map (fun q =>
      if isSuccess (answer_query envC7 q).1 then
        dgetD (answer_query envC7 q).1 "answer" (Value.vStr "")
      else Value.vStr "No answer available.") :=
  stage4_degrades_and_continues envC7 "RQ" "r.pdf" 0 0 rfl rfl

/-- The entry selected by `RPC.call`'s reply scan always carries the
correlation id the scan was asked for. -/
theorem findMatch_some_cid (entries : List MockEntry) (cid : String) (e : MockEntry)
    (rest : List MockEntry) (h : findMatch entries cid = some (e, rest)) :
    e.correlation_id = cid := by
  induction entries generalizing rest with
  | nil => simp [findMatch] at h
  | cons a as ih =>
    rw [findMatch] at h
    by_cases ha : a.correlation_id = cid
    · rw [if_pos ha] at h
      cases h
      exact ha
    · rw [if_neg ha] at h
      rcases hf : findMatch as cid with _ | pr
      · rw [hf] at h
        cases h
      · obtain ⟨m, rest'⟩ := pr
        rw [hf] at h
        cases h
        exact ih rest' hf

/-- When no buffered entry matches, the scan selects nothing and the call
keeps waiting. -/
theorem findMatch_no_match (entries : List MockEntry) (cid : String)
    (h : ∀ e ∈ entries, e.correlation_id ≠ cid) :
    findMatch entries cid = none := by
  induction entries with
  | nil => rfl
  | cons a as ih =>
    rw [findMatch]
    rw [if_neg (h a (by simp))]
    rw [ih (fun e he => h e (by simp [he]))]

/-- C1 counterexample: `BaseAgent.send_message` with
`wait_for_response=True` delivers a mismatched-id reply to the caller.
The caller generates correlation id `cid-A` (base_agent.py 126), yet the
temporary consumer's `response_handler` (lines 116-118) stores whatever
message arrives without comparing ids, so an envelope carried under
correlation id `cid-B` is returned as the call's result. -/
theorem send_message_accepts_mismatch :
    send_message_wait "cid-A" [(fxResp, "cid-B")] = fxResp ∧ "cid-B" ≠ "cid-A" :=
  ⟨rfl, by decide⟩

/-- C1 (amended): the reply-filtering invariant holds for `RPC.call` —
its scan only ever accepts an entry whose correlation id equals the one
generated for the call, and accepts nothing when no entry matches — but
not for `BaseAgent.send_message` with `wait_for_response=True`, which
returns the first envelope arriving on its temporary reply queue without
comparing correlation ids. -/
theorem rpc_correlation_filter (entries : List MockEntry) (cid : String) :
    (∀ e rest, findMatch entries cid = some (e, rest) → e.correlation_id = cid) ∧
    ((∀ e ∈ entries, e.correlation_id ≠ cid) → findMatch entries cid = none) ∧
    (∀ (caller_cid other_cid : String) (m : Dict) (later : List (Dict × String)),
      send_message_wait caller_cid ((m, other_cid) :: later) = m) :=
  ⟨fun e rest h => findMatch_some_cid entries cid e rest h,
   fun h => findMatch_no_match entries cid h,
   fun _ _ _ _ => rfl⟩

theorem rpc_correlation_filter_witness :
    fxEntryMatch.correlation_id = "cid-X" ∧
    findMatch [fxEntryOther] "cid-X" = none :=
  ⟨(rpc_correlation_filter [fxEntryOther, fxEntryMatch] "cid-X").1 fxEntryMatch
      [fxEntryOther] rfl,
   (rpc_correlation_filter [fxEntryOther] "cid-X").2.1 (by decide)⟩

/-- When no matching reply is ever buffered, the `RPC.call` wait loop
resolves to the timeout error at exactly the first iteration whose
elapsed time exceeds the timeout. -/
theorem rpcWaitFrom_timeout_aux (sched : Nat → List MockEntry) (cid rk : String)
    (T : Nat) (hnone : ∀ i, findMatch (sched i) cid = none) :
    ∀ fuel iter, iter ≤ 10 * T + 1 → 10 * T + 1 < iter + fuel →
    rpcWaitFrom sched cid rk T iter fuel =
      (Except.error ("RPC call to " ++ rk ++ " timed out after " ++ toString T ++
        " seconds"), 10 * T + 1) := by
  intro fuel
  induction fuel with
  | zero =>
    intro iter h1 h2
    omega
  | succ fuel ih =>
    intro iter h1 h2
    simp only [rpcWaitFrom, hnone iter]
    by_cases hit : iter > 10 * T
    · rw [if_pos hit]
      have hiter : iter = 10 * T + 1 := by omega
      rw [hiter]
    · rw [if_neg hit]
      exact ih (iter + 1) (by omega) (by omega)

/-- C6: a reply-waiting call whose target never publishes a matching
reply resolves to a distinguished timeout error, neither earlier nor
indefinitely: the `RPC.call` wait loop raises
`TimeoutError("RPC call to <routing_key> timed out after <timeout>
seconds")` exactly at iteration `10 * T + 1` — the first loop pass whose
elapsed time (one `sleep(0.1)` per pass) exceeds the `T`-second timeout —
and `BaseAgent.send_message`'s wait path returns its timeout error dict
when nothing arrives within the window. -/
theorem rpc_call_timeout (sched : Nat → List MockEntry) (cid rk : String) (T fuel : Nat)
    (hnone : ∀ i, findMatch (sched i) cid = none) (hfuel : 10 * T + 1 < fuel) :
    rpcWaitFrom sched cid rk T 0 fuel =
      (Except.error ("RPC call to " ++ rk ++ " timed out after " ++ toString T ++
        " seconds"), 10 * T + 1) ∧
    send_message_wait cid [] =
      [("status", Value.vStr "error"),
       ("error", Value.vStr "Timeout waiting for response")] :=
  ⟨rpcWaitFrom_timeout_aux sched cid rk T hnone fuel 0 (by omega) (by omega), rfl⟩

theorem rpc_call_timeout_witness :
    rpcWaitFrom (fun _ => []) "cid-w" "agent_ghost" 1 0 12 =
      (Except.error "RPC call to agent_ghost timed out after 1 seconds", 11) ∧
    send_message_wait "cid-w" [] =
      [("status", Value.vStr "error"),
       ("error", Value.vStr "Timeout waiting for response")] :=
  rpc_call_timeout (fun _ => []) "cid-w" "agent_ghost" 1 12 (fun _ => rfl) (by omega)

/-- C4: for an inbound envelope whose type has a registered handler and
which carries `reply_to`, dispatch publishes to the `reply_to` address a
response whose type is the request type with `"_response"` appended,
whose status is `success` with the handler's result under `data` when the
handler returns, and `error` with the message under `error` when the
handler raises — in both cases under the request's correlation id,
unchanged.  The conclusion characterises every queue buffer after the
dispatch: only copies of that exact response entry are appended
(`deliverCount` of them per queue), and the reply queue itself always
receives at least one. -/
theorem dispatch_response_contract (ctx : AgentCtx) (st : BrokerState) (m : Dict)
    (cid : String) (now : Nat) (fresh : Nat → String) (t rt : String)
    (h : Dict → String → Except String Value)
    (ht : msgType m = some t) (hh : ctx.handlers t = some h)
    (hr : replyTo m = some rt) :
    (∀ r, h m cid = Except.ok r →
      (∀ q, (process_message ctx st m cid now fresh).mock_messages q =
        st.mock_messages q ++ List.replicate (deliverCount st q rt)
          { message := [("type", Value.vStr (t ++ "_response")),
                        ("status", Value.vStr "success"), ("data", r),
                        ("agent_id", Value.vStr ctx.agent_id)],
            correlation_id := cid, timestamp := now }) ∧
      1 ≤ deliverCount st rt rt) ∧
    (∀ e, h m cid = Except.error e →
      (∀ q, (process_message ctx st m cid now fresh).mock_messages q =
        st.mock_messages q ++ List.replicate (deliverCount st q rt)
          { message := [("type", Value.vStr (t ++ "_response")),
                        ("status", Value.vStr "error"), ("error", Value.vStr e),
                        ("agent_id", Value.vStr ctx.agent_id)],
            correlation_id := cid, timestamp := now }) ∧
      1 ≤ deliverCount st rt rt) := by
  constructor
  · intro r hok
    refine ⟨fun q => ?_, deliverCount_self st rt⟩
    unfold process_message
    simp only [ht, hh, hok, hr]
    exact publish_message_apply ..
  · intro e herr
    refine ⟨fun q => ?_, deliverCount_self st rt⟩
    unfold process_message
    simp only [ht, hh, herr, hr]
    exact publish_message_apply ..

theorem dispatch_response_contract_witness :
    (process_message ctxW stC3 mWork "cid-2" 7 fxFresh).mock_messages "rq-2" =
      stC3.mock_messages "rq-2" ++ List.replicate (deliverCount stC3 "rq-2" "rq-2")
        { message := [("type", Value.vStr ("work" ++ "_response")),
                      ("status", Value.vStr "success"), ("data", Value.vStr "done"),
                      ("agent_id", Value.vStr "agent-w")],
          correlation_id := "cid-2", timestamp := 7 } :=
  (((dispatch_response_contract ctxW stC3 mWork "cid-2" 7 fxFresh "work" "rq-2"
      (fun _ _ => Except.ok (Value.vStr "done")) rfl rfl rfl).1
    (Value.vStr "done") rfl).1 "rq-2")

theorem consumerRun_zero (ctx : AgentCtx) (queue : String) (st : BrokerState)
    (now : Nat) (fresh : Nat → String) :
    consumerRun ctx queue st 0 now fresh = (st, []) := rfl

/-- One iteration of the mock consumer loop on a non-empty buffer: pop
the head, dispatch it (logging the callback invocation), continue. -/
theorem consumerRun_succ (ctx : AgentCtx) (queue : String) (st : BrokerState)
    (fuel now : Nat) (fresh : Nat → String) (e : MockEntry) (rest : List MockEntry)
    (h : st.mock_messages queue = e :: rest) :
    consumerRun ctx queue st (fuel + 1) now fresh =
      ((consumerRun ctx queue
          (process_message ctx
            { st with mock_messages := fun x => if x = queue then rest else st.mock_messages x }
            e.message e.correlation_id now fresh) fuel now fresh).1,
       (e.message, e.correlation_id) ::
        (consumerRun ctx queue
          (process_message ctx
            { st with mock_messages := fun x => if x = queue then rest else st.mock_messages x }
            e.message e.correlation_id now fresh) fuel now fresh).2) := by
  rw [consumerRun, h]

/-- Two iterations of the consumer loop on a buffer holding at least two
entries invoke the callback on exactly those two entries, in order —
whatever the dispatches publish meanwhile, since dispatch only appends to
buffer tails while the loop pops heads. -/
theorem consumerRun_two_log (ctx : AgentCtx) (queue : String) (st : BrokerState)
    (now : Nat) (fresh : Nat → String) (e1 e2 : MockEntry) (buf : List MockEntry)
    (h : st.mock_messages queue = e1 :: e2 :: buf) :
    (consumerRun ctx queue st 2 now fresh).2 =
      [(e1.message, e1.correlation_id), (e2.message, e2.correlation_id)] := by
  rw [consumerRun_succ ctx queue st 1 now fresh e1 (e2 :: buf) h]
  obtain ⟨extra, hext⟩ := process_message_extends ctx
    { st with mock_messages := fun x => if x = queue then e2 :: buf else st.mock_messages x }
    e1.message e1.correlation_id now fresh queue
  have hext2 : (process_message ctx
      { st with mock_messages := fun x => if x = queue then e2 :: buf else st.mock_messages x }
      e1.message e1.correlation_id now fresh).mock_messages queue =
      e2 :: (buf ++ extra) := by
    rw [hext]
    simp
  rw [consumerRun_succ ctx queue _ 0 now fresh e2 (buf ++ extra) hext2]
  rw [consumerRun_zero]

/-- C5: in mock mode, publishing to a routing key `q` that is also the
name of a queue whose bindings contain `q` (the very shape
`BaseAgent.__init__` and the RPC reply-queue setup create with
`create_queue(name, [name])`) appends the envelope to `q`'s buffer TWICE:
once at messaging.py line 76 under the routing-key entry of
`mock_messages` — which IS the queue's buffer — and once more in the
binding loop (lines 83-92); the queue's consumer loop then invokes its
callback — `BaseAgent._process_message`, which dispatches to the
registered handler — twice with that same envelope. -/
theorem self_bound_double_delivery (st : BrokerState) (q : String) (msg : Dict)
    (cid : String) (now : Nat) (fresh : Nat → String) (ctx : AgentCtx)
    (hbind : st.mock_queues.countP (fun p => p.1 == q && p.2.contains q) = 1)
    (hbuf : st.mock_messages q = []) :
    (publish_message st q msg (some cid) now fresh).mock_messages q =
      [{ message := msg, correlation_id := cid, timestamp := now },
       { message := msg, correlation_id := cid, timestamp := now }] ∧
    (consumerRun ctx q (publish_message st q msg (some cid) now fresh) 2 now fresh).2 =
      [(msg, cid), (msg, cid)] := by
  have hpub : (publish_message st q msg (some cid) now fresh).mock_messages q =
      [{ message := msg, correlation_id := cid, timestamp := now },
       { message := msg, correlation_id := cid, timestamp := now }] := by
    rw [publish_message_apply, hbuf]
    unfold deliverCount
    rw [if_pos rfl, hbind]
    rfl
  exact ⟨hpub, consumerRun_two_log ctx q _ now fresh _ _ [] hpub⟩

theorem self_bound_double_delivery_witness :
    (publish_message stC5 "agent_x" mPlain (some "cid-5") 3 fxFresh).mock_messages
        "agent_x" =
      [{ message := mPlain, correlation_id := "cid-5", timestamp := 3 },
       { message := mPlain, correlation_id := "cid-5", timestamp := 3 }] ∧
    (consumerRun ctxW "agent_x" (publish_message stC5 "agent_x" mPlain (some "cid-5") 3
        fxFresh) 2 3 fxFresh).2 =
      [(mPlain, "cid-5"), (mPlain, "cid-5")] :=
  self_bound_double_delivery stC5 "agent_x" mPlain "cid-5" 3 fxFresh ctxW
    (by decide) rfl

/-- C10 counterexample: stopping an agent does NOT close its consumption
loop or release mock-broker state.  With a `stop` request and a further
`ping` request pending on agent-w's inbound queue: `stop` (whose only
effect, `message_broker.close()`, is a no-op in mock mode) leaves the
broker state untouched, and the consumer loop afterwards still dispatches
both the `stop` envelope and the subsequent `ping` envelope — even
publishing the ping response — because `_mock_consumer_thread` loops
unconditionally and is never signalled. -/
theorem stop_does_not_close_loop :
    agent_stop_mock stC10 = stC10 ∧
    (consumerRun ctxW "agent_agent-w" (agent_stop_mock stC10) 2 0 fxFresh).2 =
      [(mStop, "cid-s"), (mPing, "cid-p")] ∧
    (consumerRun ctxW "agent_agent-w" (agent_stop_mock stC10) 2 0
        fxFresh).1.mock_messages "rq-p" =
      [⟨[("type", Value.vStr "ping_response"), ("status", Value.vStr "success"),
         ("data", Value.vDict [("status", Value.vStr "alive"),
           ("agent_id", Value.vStr "agent-w"),
           ("agent_type", Value.vStr "WorkerAgent")]),
         ("agent_id", Value.vStr "agent-w")], "cid-p", 0⟩] := by
  refine ⟨rfl, ?_, ?_⟩
  · exact consumerRun_two_log ctxW "agent_agent-w" stC10 0 fxFresh
      ⟨mStop, "cid-s", 0⟩ ⟨mPing, "cid-p", 0⟩ [] rfl
  · rfl

/-- C10 (amended): in mock mode, invoking `stop` (directly or via the
built-in `stop` message) is a no-op on the broker: `MessageBroker.close`
releases a connection only for the transport-backed broker, so no broker
state is released, and the consumption loop — a daemon thread running an
unconditional `while True` that `stop` never signals — is not closed: it
continues to poll and dispatch envelopes from the inbound queue exactly
as if `stop` had never been invoked. -/
theorem stop_mock_noop (st : BrokerState) (ctx : AgentCtx) (q : String)
    (fuel now : Nat) (fresh : Nat → String) :
    agent_stop_mock st = st ∧
    consumerRun ctx q (agent_stop_mock st) fuel now fresh =
      consumerRun ctx q st fuel now fresh :=
  ⟨rfl, rfl⟩

/-- C3: a handler exception never terminates the consumption loop.  With
an agent queue `aq` (bound to itself, as `BaseAgent.__init__` creates it)
holding a request `m1` whose handler raises `err` followed by a request
`m2` of any registered type whose handler succeeds: the loop dispatches
both envelopes in order — the exception is caught at the dispatch
boundary (`try/except` in `_process_message` and in
`_mock_consumer_thread`) — an error-status response for `m1` is published
to its `reply_to`, and the subsequent well-formed request `m2` still
receives its success response on its own reply queue. -/
theorem consumerRun_fst_succ (ctx : AgentCtx) (queue : String) (st : BrokerState)
    (fuel now : Nat) (fresh : Nat → String) (e : MockEntry) (rest : List MockEntry)
    (h : st.mock_messages queue = e :: rest) :
    (consumerRun ctx queue st (fuel + 1) now fresh).1 =
      (consumerRun ctx queue
        (process_message ctx
          { st with mock_messages := fun x => if x = queue then rest else st.mock_messages x }
          e.message e.correlation_id now fresh) fuel now fresh).1 := by
  rw [consumerRun_succ ctx queue st fuel now fresh e rest h]

theorem consumerRun_fst_zero (ctx : AgentCtx) (queue : String) (st : BrokerState)
    (now : Nat) (fresh : Nat → String) :
    (consumerRun ctx queue st 0 now fresh).1 = st := rfl

/-- Publishing to `rk` on a broker whose only queue is `aq` self-bound
leaves every buffer other than `rk`'s untouched (when `rk ≠ aq`). -/
theorem publish_other_buf (s : BrokerState) (rk : String) (msg : Dict) (cid : String)
    (now : Nat) (fresh : Nat → String) (q aq : String) (hne : q ≠ rk)
    (hqs : s.mock_queues = [(aq, [aq])]) (hrk : rk ≠ aq) :
    (publish_message s rk msg (some cid) now fresh).mock_messages q =
      s.mock_messages q := by
  rw [publish_message_apply]
  have hdc : deliverCount s q rk = 0 := by
    unfold deliverCount
    rw [if_neg hne, hqs]
    simp [List.contains, List.elem, hrk]
  rw [hdc]
  simp

/-- Publishing to `rk` on a broker whose only queue is `aq` self-bound
(`rk ≠ aq`) appends exactly one entry to `rk`'s buffer. -/
theorem publish_self_buf (s : BrokerState) (rk : String) (msg : Dict) (cid : String)
    (now : Nat) (fresh : Nat → String) (aq : String)
    (hqs : s.mock_queues = [(aq, [aq])]) (hrk : rk ≠ aq) :
    (publish_message s rk msg (some cid) now fresh).mock_messages rk =
      s.mock_messages rk ++
        [{ message := msg, correlation_id := cid, timestamp := now }] := by
  rw [publish_message_apply]
  have hdc : deliverCount s rk rk = 1 := by
    unfold deliverCount
    rw [if_pos rfl, hqs]
    simp [List.contains, List.elem, hrk]
  rw [hdc]
  rfl

/-- Running the consumer loop for two iterations on the two-request state
when each request's dispatch resolves to one response publish: the final
buffers of the two (distinct, non-inbound) reply queues hold exactly the
respective response entries. -/
theorem consumerRun_two_state (ctx : AgentCtx) (aq : String) (e1 e2 : MockEntry)
    (now : Nat) (fresh : Nat → String) (r1 r2 : String) (R1 R2 : Dict)
    (hpm1 : ∀ s : BrokerState,
      process_message ctx s e1.message e1.correlation_id now fresh =
        publish_message s r1 R1 (some e1.correlation_id) now fresh)
    (hpm2 : ∀ s : BrokerState,
      process_message ctx s e2.message e2.correlation_id now fresh =
        publish_message s r2 R2 (some e2.correlation_id) now fresh)
    (hq1 : r1 ≠ aq) (hq2 : r2 ≠ aq) (h12 : r1 ≠ r2) :
    (consumerRun ctx aq (twoMsgState aq e1 e2) 2 now fresh).1.mock_messages r1 =
      [{ message := R1, correlation_id := e1.correlation_id, timestamp := now }] ∧
    (consumerRun ctx aq (twoMsgState aq e1 e2) 2 now fresh).1.mock_messages r2 =
      [{ message := R2, correlation_id := e2.correlation_id, timestamp := now }] := by
  have hbuf0 : (twoMsgState aq e1 e2).mock_messages aq = e1 :: [e2] := by
    simp [twoMsgState]
  have hbufP1 : (publish_message
      { twoMsgState aq e1 e2 with
        mock_messages := fun x =>
          if x = aq then [e2] else (twoMsgState aq e1 e2).mock_messages x }
      r1 R1 (some e1.correlation_id) now fresh).mock_messages aq = e2 :: [] := by
    rw [publish_other_buf _ r1 R1 e1.correlation_id now fresh aq aq (Ne.symm hq1) rfl hq1]
    simp
  refine ⟨?_, ?_⟩
  · rw [consumerRun_fst_succ ctx aq (twoMsgState aq e1 e2) 1 now fresh e1 [e2] hbuf0,
      hpm1, consumerRun_fst_succ ctx aq _ 0 now fresh e2 [] hbufP1, hpm2,
      consumerRun_fst_zero]
    rw [publish_other_buf _ r2 R2 e2.correlation_id now fresh r1 aq h12 rfl hq2]
    simp only [if_neg hq1]
    rw [publish_self_buf _ r1 R1 e1.correlation_id now fresh aq rfl hq1]
    simp [twoMsgState, hq1]
  · rw [consumerRun_fst_succ ctx aq (twoMsgState aq e1 e2) 1 now fresh e1 [e2] hbuf0,
      hpm1, consumerRun_fst_succ ctx aq _ 0 now fresh e2 [] hbufP1, hpm2,
      consumerRun_fst_zero]
    rw [publish_self_buf _ r2 R2 e2.correlation_id now fresh aq rfl hq2]
    simp only [if_neg hq2]
    rw [publish_other_buf _ r1 R1 e1.correlation_id now fresh r2 aq (Ne.symm h12) rfl hq1]
    simp [twoMsgState, hq2]

/-- C3: a handler exception never terminates the consumption loop.  With
the agent's self-bound inbound queue `aq` holding a request `m1` whose
handler raises `err` followed by a request `m2` of any registered type
whose handler succeeds: the loop dispatches both envelopes in order — the
exception is caught at the dispatch boundary (`try/except` in
`_process_message`, base_agent.py 51-80, and around the callback in
`_mock_consumer_thread`, messaging.py 184-187) — an error-status response
for `m1` is published to its `reply_to`, and the subsequent well-formed
request `m2` still receives its success response on its own reply
queue. -/
theorem handler_exception_isolated (ctx : AgentCtx) (aq r1 r2 t1 t2 : String)
    (m1 m2 : Dict) (c1 c2 : String) (ts1 ts2 now : Nat) (fresh : Nat → String)
    (h1 h2 : Dict → String → Except String Value) (err : String) (res : Value)
    (hm1t : msgType m1 = some t1) (hm2t : msgType m2 = some t2)
    (hh1 : ctx.handlers t1 = some h1) (hh2 : ctx.handlers t2 = some h2)
    (hr1 : replyTo m1 = some r1) (hr2 : replyTo m2 = some r2)
    (he : h1 m1 c1 = Except.error err) (hs : h2 m2 c2 = Except.ok res)
    (hq1 : r1 ≠ aq) (hq2 : r2 ≠ aq) (h12 : r1 ≠ r2) :
    (consumerRun ctx aq (twoMsgState aq ⟨m1, c1, ts1⟩ ⟨m2, c2, ts2⟩)
        2 now fresh).2 = [(m1, c1), (m2, c2)] ∧
    (consumerRun ctx aq (twoMsgState aq ⟨m1, c1, ts1⟩ ⟨m2, c2, ts2⟩)
        2 now fresh).1.mock_messages r1 =
      [⟨[("type", Value.vStr (t1 ++ "_response")), ("status", Value.vStr "error"),
         ("error", Value.vStr err), ("agent_id", Value.vStr ctx.agent_id)], c1, now⟩] ∧
    (consumerRun ctx aq (twoMsgState aq ⟨m1, c1, ts1⟩ ⟨m2, c2, ts2⟩)
        2 now fresh).1.mock_messages r2 =
      [⟨[("type", Value.vStr (t2 ++ "_response")), ("status", Value.vStr "success"),
         ("data", res), ("agent_id", Value.vStr ctx.agent_id)], c2, now⟩] := by
  have hpm1 : ∀ s : BrokerState, process_message ctx s m1 c1 now fresh =
      publish_message s r1
        [("type", Value.vStr (t1 ++ "_response")), ("status", Value.vStr "error"),
         ("error", Value.vStr err), ("agent_id", Value.vStr ctx.agent_id)]
        (some c1) now fresh := by
    intro s
    unfold process_message
    simp only [hm1t, hh1, he, hr1]
  have hpm2 : ∀ s : BrokerState, process_message ctx s m2 c2 now fresh =
      publish_message s r2
        [("type", Value.vStr (t2 ++ "_response")), ("status", Value.vStr "success"),
         ("data", res), ("agent_id", Value.vStr ctx.agent_id)]
        (some c2) now fresh := by
    intro s
    unfold process_message
    simp only [hm2t, hh2, hs, hr2]
  have hstate := consumerRun_two_state ctx aq ⟨m1, c1, ts1⟩ ⟨m2, c2, ts2⟩ now fresh r1 r2
    _ _ hpm1 hpm2 hq1 hq2 h12
  have hlog := consumerRun_two_log ctx aq (twoMsgState aq ⟨m1, c1, ts1⟩ ⟨m2, c2, ts2⟩)
    now fresh ⟨m1, c1, ts1⟩ ⟨m2, c2, ts2⟩ [] (by simp [twoMsgState])
  exact ⟨hlog, hstate.1, hstate.2⟩

theorem handler_exception_isolated_witness :
    (consumerRun ctxW "agent_agent-w"
        (twoMsgState "agent_agent-w" ⟨mBoom, "cid-1", 0⟩ ⟨mWork, "cid-2", 0⟩)
        2 9 fxFresh).2 = [(mBoom, "cid-1"), (mWork, "cid-2")] ∧
    (consumerRun ctxW "agent_agent-w"
        (twoMsgState "agent_agent-w" ⟨mBoom, "cid-1", 0⟩ ⟨mWork, "cid-2", 0⟩)
        2 9 fxFresh).1.mock_messages "rq-1" =
      [⟨[("type", Value.vStr ("boom" ++ "_response")), ("status", Value.vStr "error"),
         ("error", Value.vStr "kaboom"), ("agent_id", Value.vStr "agent-w")],
        "cid-1", 9⟩] ∧
    (consumerRun ctxW "agent_agent-w"
        (twoMsgState "agent_agent-w" ⟨mBoom, "cid-1", 0⟩ ⟨mWork, "cid-2", 0⟩)
        2 9 fxFresh).1.mock_messages "rq-2" =
      [⟨[("type", Value.vStr ("work" ++ "_response")), ("status", Value.vStr "success"),
         ("data", Value.vStr "done"), ("agent_id", Value.vStr "agent-w")],
        "cid-2", 9⟩] :=
  handler_exception_isolated ctxW "agent_agent-w" "rq-1" "rq-2" "boom" "work"
    mBoom mWork "cid-1" "cid-2" 0 0 9 fxFresh
    (fun _ _ => Except.error "kaboom") (fun _ _ => Except.ok (Value.vStr "done"))
    "kaboom" (Value.vStr "done")
    rfl rfl rfl rfl rfl rfl rfl rfl (by decide) (by decide) (by decide)

end Crew
